import Mathlib

/-!
Verification of the PTY-backed process-spawning subsystem in
`src/src/main/jni/pty.c` (functions `createSubprocess` and `waitFor`).

The C code is shallowly embedded: the termios profile built at the top of
`createSubprocess` becomes a concrete `Termios` value; the child branch
(chdir, argv/env marshalling, execvpe) becomes a pure function from an
oracle of primitive-call outcomes to a trace of operations and a final
outcome; the parent branch becomes a function from the forkpty result and
the result-array allocation outcome to the observable parent state; and
`waitFor` becomes the status-word decoding applied to what `waitpid`
leaves in the status variable.
-/

namespace Pty

/-! ### Terminal mode profile (pty.c lines 28-43)

Bit values are the Linux/Android (asm-generic) termbits constants included
via `<termios.h>` in the source. -/

def ICRNL : Nat := 0x100
def IXON : Nat := 0x400
def IXANY : Nat := 0x800
def OPOST : Nat := 0x1
def ONLCR : Nat := 0x4
def ISIG : Nat := 0x1
def ICANON : Nat := 0x2
def ECHO : Nat := 0x8
def ECHOE : Nat := 0x10
def ECHOK : Nat := 0x20
def ECHONL : Nat := 0x40
def IEXTEN : Nat := 0x8000
def CS8 : Nat := 0x30
def CREAD : Nat := 0x80

/-- The termios fields the source assigns: the four flag words and the
control-character slots it sets (`c_cc` entries not listed stay 0 from the
`memset`). -/
structure Termios where
  c_iflag : Nat
  c_oflag : Nat
  c_lflag : Nat
  c_cflag : Nat
  cc_vintr : Nat
  cc_vquit : Nat
  cc_verase : Nat
  cc_vkill : Nat
  cc_veof : Nat
  cc_vstop : Nat
  cc_vsusp : Nat
  cc_vstart : Nat
  cc_vmin : Nat
  cc_vtime : Nat
  deriving DecidableEq, Repr

/-- The fixed profile `createSubprocess` builds (pty.c lines 28-43):
`tt.c_iflag = ICRNL | IXON | IXANY;` etc., and the control characters
written as C character arithmetic, e.g. `tt.c_cc[VINTR] = 'C' - '@';`. -/
def buildTermios : Termios where
  c_iflag := ICRNL ||| IXON ||| IXANY
  c_oflag := OPOST ||| ONLCR
  c_lflag := ISIG ||| ICANON ||| ECHO ||| ECHOE ||| ECHOK ||| ECHONL ||| IEXTEN
  c_cflag := CS8 ||| CREAD
  cc_vintr := 'C'.toNat - '@'.toNat
  cc_vquit := '\\'.toNat - '@'.toNat
  cc_verase := 0x7f
  cc_vkill := 'U'.toNat - '@'.toNat
  cc_veof := 'D'.toNat - '@'.toNat
  cc_vstop := 'S'.toNat - '@'.toNat
  cc_vsusp := 'Z'.toNat - '@'.toNat
  cc_vstart := 'Q'.toNat - '@'.toNat
  cc_vmin := 1
  cc_vtime := 0

/-! ### waitFor (pty.c lines 99-107)

The source declares `int status;`, calls `waitpid(pid, &status, 0)` without
inspecting its return value, and then decodes `status` with the glibc/bionic
macros `WIFEXITED(s) = ((s & 0x7f) == 0)` and
`WEXITSTATUS(s) = ((s & 0xff00) >> 8)`. -/

def wifexited (status : Nat) : Bool := status &&& 0x7f == 0

def wexitstatus (status : Nat) : Nat := (status &&& 0xff00) >>> 8

/-- The decoding performed by the body of `waitFor` on whatever value the
status variable holds after the `waitpid` call. -/
def decodeStatus (status : Nat) : Int :=
  if wifexited status then (wexitstatus status : Int) else -1

/-- Full model of `waitFor`: `waitpidRes = some st` models a `waitpid` call
that reported a state change and stored the status word `st`;
`waitpidRes = none` models a failed `waitpid` call (invalid or
already-reaped pid), which stores nothing, so the source decodes the
uninitialized stack value `residual` instead. The source never looks at
`waitpid`'s return value, so both branches run the same decode. -/
def waitFor (waitpidRes : Option Nat) (residual : Nat) : Int :=
  match waitpidRes with
  | some st => decodeStatus st
  | none => decodeStatus residual

/-! POSIX status-word encodings (how the kernel forms the status word that
`waitpid` stores), used to state claims about termination classes. -/

/-- Status word for a child that terminated normally with exit code `code`
(only the low 8 bits of the code reach the status word). -/
def encodeExited (code : Nat) : Nat := (code &&& 0xff) <<< 8

/-- Status word for a child terminated by signal `sig` (valid signal
numbers are 1..64 on Linux); `core` is the core-dump flag bit. -/
def encodeSignaled (sig : Nat) (core : Bool) : Nat :=
  sig ||| (if core then 0x80 else 0)

/-- Status word reported for a stopped child (low byte 0x7f). -/
def encodeStopped (sig : Nat) : Nat := 0x7f ||| (sig <<< 8)

/-! ### Argv/env marshalling in the child (pty.c lines 61-79)

C strings are modelled as byte lists. `GetStringUTFChars` yields modified
UTF-8, and `strdup` copies bytes up to (excluding) the first NUL byte. -/

/-- A native byte string (the bytes before the terminating NUL). -/
abbrev CStr := List Nat

/-- `strdup`: the copy holds the bytes of its argument up to the first NUL
byte (an embedded NUL truncates the copy). The copy is freshly allocated,
which value semantics model as the result being a function of the byte
content only. -/
def strdup (s : CStr) : CStr := s.takeWhile (fun b => b ≠ 0)

/-- Result of one marshalling loop of the source. `crash`: the `malloc` for
the vector failed and the loop (or the terminator store) wrote through the
null pointer unchecked — a null-pointer dereference, modelled as a crash of
the child. No error value is ever produced: the source checks neither
`malloc` nor `strdup`. -/
inductive MarshalResult where
  | ok (vec : List (Option CStr))
  | crash
  deriving DecidableEq, Repr

/-- The entry loop (pty.c lines 64-69 for env, 73-78 for argv): slot `i`
receives `strdup` of the `i`-th string, or NULL when that `strdup`'s
allocation fails (`dup i = false`) — the failure is not detected and the
loop continues. -/
def marshalEntries (dup : Nat → Bool) : Nat → List CStr → List (Option CStr)
  | _, [] => []
  | i, s :: ss => (if dup i then some (strdup s) else none) :: marshalEntries dup (i + 1) ss

/-- One marshalling pass of the source (vector `malloc`, entry loop, NULL
terminator). `vecAlloc` is the outcome of the vector `malloc`; `dup i` the
outcome of the `i`-th `strdup` allocation. -/
def marshalVec (vecAlloc : Bool) (dup : Nat → Bool) (strs : List CStr) : MarshalResult :=
  if vecAlloc then .ok (marshalEntries dup 0 strs ++ [none]) else .crash

/-! ### Child branch (pty.c lines 53-85) -/

/-- The primitive operations the child performs between fork and exec,
as they appear in the source. -/
inductive Op where
  | jniGetString
  | jniRelease
  | jniGetArrayLength
  | jniGetElement
  | chdirCall
  | mallocCall
  | strdupCall
  | logError
  | execvpeCall
  | exitCall
  deriving DecidableEq, Repr

/-- Whether an operation is on the POSIX.1 list of async-signal-safe
functions (the set permitted between fork and exec in the child of a
multithreaded process). `chdir` is on the list; `malloc`, `strdup`, `exit`
(which runs atexit handlers; only `_exit`/`_Exit` are listed), `execvpe`
(a nonstandard path-searching wrapper; only `execve`/`execl` family members
without path search from the environment are listed), JNI entry points and
`__android_log_print` are not. -/
def asyncSignalSafe : Op → Bool
  | .chdirCall => true
  | _ => false

/-- Outcome of the child branch: `exited code` — the child called
`exit(code)`; `execed argv envp` — `execvpe` succeeded and replaced the
image, running `argv[0]` with the marshalled vectors; `crashed` — a
null-pointer dereference on an unchecked allocation failure. -/
inductive ChildOutcome where
  | exited (code : Nat)
  | execed (argv : List (Option CStr)) (envp : List (Option CStr))
  | crashed
  deriving DecidableEq, Repr

/-- The child branch's observable behaviour: the ordered trace of primitive
operations it performed, and how it ended. -/
structure ChildResult where
  trace : List Op
  outcome : ChildOutcome
  deriving DecidableEq, Repr

/-- Oracle for the outcomes of the child's fallible primitives: whether
`chdir(workingDir)` succeeds, whether each `malloc`/`strdup` succeeds, and
whether `execvpe` succeeds in replacing the image. -/
structure ChildWorld where
  chdirOk : Bool
  envVecAlloc : Bool
  envDup : Nat → Bool
  argVecAlloc : Bool
  argDup : Nat → Bool
  execOk : Bool

/-- JNI/allocation operations of one entry iteration (pty.c lines 65-68):
`GetObjectArrayElement`, `GetStringUTFChars`, `strdup`,
`ReleaseStringUTFChars`. -/
def entryOps : List CStr → List Op
  | [] => []
  | _ :: ss => .jniGetElement :: .jniGetString :: .strdupCall :: .jniRelease :: entryOps ss

/-- Trace of one marshalling pass: `GetArrayLength`, the vector `malloc`,
then the entry loop. When the vector `malloc` failed the child still runs
the JNI calls and `strdup` of the first iteration before the store
`vec[0] = ...` faults (for an empty sequence the terminator store
`vec[0] = NULL` faults immediately). -/
def marshalOps (vecAlloc : Bool) (strs : List CStr) : List Op :=
  [.jniGetArrayLength, .mallocCall] ++
    (if vecAlloc then entryOps strs
     else match strs with
       | [] => []
       | _ :: _ => [.jniGetElement, .jniGetString, .strdupCall])

/-- The child branch of `createSubprocess` (pty.c lines 53-85): get the
working-directory string and `chdir` to it — on failure log and `exit(1)`;
otherwise release the string, marshal the environment vector, marshal the
argument vector, and `execvpe(argv[0], argv, envp)` — on exec failure log
and `exit(1)`; a successful exec never returns. -/
def childRun (w : ChildWorld) (cmdarray envarray : List CStr) : ChildResult :=
  let pre : List Op := [.jniGetString, .chdirCall]
  if w.chdirOk then
    let envOps := marshalOps w.envVecAlloc envarray
    match marshalVec w.envVecAlloc w.envDup envarray with
    | .crash => ⟨pre ++ [.jniRelease] ++ envOps, .crashed⟩
    | .ok envp =>
      let argOps := marshalOps w.argVecAlloc cmdarray
      match marshalVec w.argVecAlloc w.argDup cmdarray with
      | .crash => ⟨pre ++ [.jniRelease] ++ envOps ++ argOps, .crashed⟩
      | .ok argv =>
        if w.execOk then
          ⟨pre ++ [.jniRelease] ++ envOps ++ argOps ++ [.execvpeCall], .execed argv envp⟩
        else
          ⟨pre ++ [.jniRelease] ++ envOps ++ argOps ++ [.execvpeCall, .logError, .exitCall],
            .exited 1⟩
  else
    ⟨pre ++ [.logError, .exitCall], .exited 1⟩

/-! ### Parent branch and overall spawn result (pty.c lines 46-51, 86-96) -/

/-- Outcome of the `forkpty` primitive as the parent observes it:
`failure` — `forkpty` returned a negative pid; per the libc contract it
then allocated no process and closed any partially opened descriptor pair
internally, so nothing is retained. `success pid fd` — the parent received
the child's process id `pid` (> 0 by the fork contract) and the open
master descriptor `fd` (≥ 0 by the open-file contract). -/
inductive ForkptyResult where
  | failure
  | success (pid : Int) (masterFd : Int)
  deriving DecidableEq, Repr

/-- Oracle for the parent-side fallible primitives of `createSubprocess`:
the `forkpty` outcome and whether `NewIntArray(env, 2)` succeeds. -/
structure SpawnWorld where
  forkRes : ForkptyResult
  resultAllocOk : Bool
  deriving DecidableEq, Repr

/-- What the JNI function returns to its caller: the two-element array
`[pid, masterFd]`, or NULL. -/
inductive SpawnReturn where
  | handle (pid : Int) (masterFd : Int)
  | nullReturn
  deriving DecidableEq, Repr

/-- Parent-observable state after `createSubprocess` returns: the returned
value, whether a child process exists, and whether the master descriptor
is open in the parent. -/
structure SpawnState where
  ret : SpawnReturn
  childCreated : Bool
  masterFdOpen : Bool
  deriving DecidableEq, Repr

/-- The parent-side control flow of `createSubprocess` (pty.c lines 46-51
and 86-96): if `forkpty` failed, log and return NULL (no process, no
descriptor); otherwise allocate the two-element result array — if that
allocation fails return NULL (the live child and the open master
descriptor remain), else fill it with `[pid, master_fd]` and return it.
The child branch executes in the child process and is modelled separately
by `childRun`. -/
def createSubprocess (w : SpawnWorld) : SpawnState :=
  match w.forkRes with
  | .failure => ⟨.nullReturn, false, false⟩
  | .success pid fd =>
    if w.resultAllocOk then ⟨.handle pid fd, true, true⟩
    else ⟨.nullReturn, true, true⟩

/-! ### Theorems -/

set_option maxRecDepth 10000

/-- C8: the terminal-mode construction takes no inputs and produces one and
the same fixed profile on every call (it is the single constant
`buildTermios`, spelled out as a literal below): canonical mode (`ICANON`)
and echo (`ECHO`) are set in the local flags, and the control-character
slots hold the conventional values — interrupt = Ctrl-C = 0x03,
quit = Ctrl-backslash = 0x1c, erase = DEL = 0x7f, kill = Ctrl-U = 0x15,
end-of-file = Ctrl-D = 0x04, stop = Ctrl-S = 0x13, suspend = Ctrl-Z = 0x1a,
start = Ctrl-Q = 0x11, minimum-read-count = 1, read-timeout = 0. -/
theorem c8_fixed_terminal_profile :
    buildTermios =
      { c_iflag := 0xd00, c_oflag := 0x5, c_lflag := 0x807b, c_cflag := 0xb0,
        cc_vintr := 0x03, cc_vquit := 0x1c, cc_verase := 0x7f, cc_vkill := 0x15,
        cc_veof := 0x04, cc_vstop := 0x13, cc_vsusp := 0x1a, cc_vstart := 0x11,
        cc_vmin := 1, cc_vtime := 0 } ∧
    buildTermios.c_lflag &&& ICANON ≠ 0 ∧
    buildTermios.c_lflag &&& ECHO ≠ 0 := by
  decide

/-- C2: when `waitpid` reports a state change, `waitFor` returns the
child's declared exit code for a normal termination, the sentinel -1 for a
signaled or stopped child and for any status not classified as a normal
exit, and the sentinel differs from every normal exit code. -/
theorem c2_waitFor_status_decoding (code sig stopSig r1 r2 r3 r4 : Nat) (core : Bool)
    (hcode : code ≤ 255) (hsig1 : 1 ≤ sig) (hsig2 : sig ≤ 64) (hstop : stopSig ≤ 64) :
    waitFor (some (encodeExited code)) r1 = code ∧
    waitFor (some (encodeSignaled sig core)) r2 = -1 ∧
    waitFor (some (encodeStopped stopSig)) r3 = -1 ∧
    (∀ st : Nat, wifexited st = false → waitFor (some st) r4 = -1) ∧
    (∀ c : Nat, c ≤ 255 → waitFor (some (encodeExited c)) r1 ≠ -1) := by
  have h1 : ∀ c : Nat, c ≤ 255 → decodeStatus (encodeExited c) = c := by decide
  have h2 : ∀ s : Nat, s ≤ 64 → 1 ≤ s → ∀ b : Bool,
      decodeStatus (encodeSignaled s b) = -1 := by decide
  have h3 : ∀ s : Nat, s ≤ 64 → decodeStatus (encodeStopped s) = -1 := by decide
  refine ⟨h1 code hcode, h2 sig hsig2 hsig1 core, h3 stopSig hstop, ?_, ?_⟩
  · intro st hst
    show decodeStatus st = -1
    simp [decodeStatus, hst]
  · intro c hc
    show decodeStatus (encodeExited c) ≠ -1
    rw [h1 c hc]
    omega

/-- Witness for C2 at exit code 7, kill signal 9, stop signal 19. -/
theorem c2_waitFor_status_decoding_witness :
    (7 ≤ 255 ∧ 1 ≤ 9 ∧ 9 ≤ 64 ∧ 19 ≤ 64) ∧
    (waitFor (some (encodeExited 7)) 0 = 7 ∧
     waitFor (some (encodeSignaled 9 false)) 0 = -1 ∧
     waitFor (some (encodeStopped 19)) 0 = -1 ∧
     (∀ st : Nat, wifexited st = false → waitFor (some st) 0 = -1) ∧
     (∀ c : Nat, c ≤ 255 → waitFor (some (encodeExited c)) 0 ≠ -1)) :=
  ⟨by decide,
   c2_waitFor_status_decoding 7 9 19 0 0 0 0 false (by decide) (by decide) (by decide)
     (by decide)⟩

/-- C7: code bug — `waitFor` discards `waitpid`'s return value, so when
`waitpid` fails (invalid or already-reaped pid, modelled by `none`) the
function decodes the uninitialized status variable instead of propagating
the error: a residual stack value of 0 yields 0 (indistinguishable from a
successful exit), 256 yields 1, and 9 yields -1 — the result is an
arbitrary function of leftover memory, not of what `waitpid` reported. -/
theorem c7_waitFor_masks_waitpid_failure :
    waitFor none 0 = 0 ∧ waitFor none 256 = 1 ∧ waitFor none 9 = -1 := by
  decide

/-- C6: code bug — the marshalling loops check no allocation. When the
vector `malloc` fails the child writes through the null pointer (a crash,
not a `ResourceExhausted` signal), and when a `strdup` fails the null
entry is stored and the loop continues (here: input "A=B", both entries of
the two-string input end up NULL with nothing released or reported). The
result type of the embedding has no error constructor to produce, because
the source has no error path at all in lines 61-79. -/
theorem c6_marshal_alloc_failure_unchecked :
    marshalVec false (fun _ => true) [[65, 61, 66]] = .crash ∧
    marshalVec true (fun _ => false) [[65, 61, 66], [67]] = .ok [none, none, none] := by
  decide

/-- With every `strdup` succeeding, the entry loop stores the copies in
input order. -/
lemma marshalEntries_all_ok (strs : List CStr) :
    ∀ n, marshalEntries (fun _ => true) n strs = strs.map (fun s => some (strdup s)) := by
  induction strs with
  | nil => intro n; rfl
  | cons s ss ih =>
    intro n
    simp [marshalEntries, ih (n + 1)]

/-- A byte string without a NUL byte is copied whole by `strdup`. -/
lemma strdup_eq_self (s : CStr) (h : ∀ b ∈ s, b ≠ 0) : strdup s = s :=
  List.takeWhile_eq_self_iff.mpr (by simpa [decide_eq_true_eq] using h)

/-- C3: for any sequence of N strings none of which embeds a NUL byte, the
marshalling pass (all allocations succeeding) yields a vector of exactly
N+1 entries whose last entry is the null sentinel and whose i-th entry,
for i < N, is the copy of the i-th input string, equal to it byte for
byte. Independence from the original string's memory is modelled by value
semantics: the copy is a function of the byte content alone
(see `strdup`). -/
theorem c3_marshal_roundtrip (strs : List CStr) (hnul : ∀ s ∈ strs, ∀ b ∈ s, b ≠ 0) :
    ∃ vec, marshalVec true (fun _ => true) strs = .ok vec ∧
      vec.length = strs.length + 1 ∧
      vec.getLast? = some none ∧
      ∀ i : Nat, (hi : i < strs.length) → vec[i]? = some (some strs[i]) := by
  refine ⟨marshalEntries (fun _ => true) 0 strs ++ [none], rfl, ?_, ?_, ?_⟩
  · simp [marshalEntries_all_ok]
  · simp [marshalEntries_all_ok]
  · intro i hi
    rw [marshalEntries_all_ok strs 0,
      List.getElem?_append_left (by simpa using hi), List.getElem?_map,
      List.getElem?_eq_getElem hi]
    have hmem : strs[i] ∈ strs := List.getElem_mem hi
    simp [strdup_eq_self _ (hnul _ hmem)]

/-- Witness for C3 on the two NUL-free strings "hi" and "A=B". -/
theorem c3_marshal_roundtrip_witness :
    (∀ s ∈ [[104, 105], [65, 61, 66]], ∀ b ∈ s, b ≠ 0) ∧
    (∃ vec, marshalVec true (fun _ => true) [[104, 105], [65, 61, 66]] = .ok vec ∧
      vec.length = ([[104, 105], [65, 61, 66]] : List CStr).length + 1 ∧
      vec.getLast? = some none ∧
      ∀ i : Nat, (hi : i < ([[104, 105], [65, 61, 66]] : List CStr).length) →
        vec[i]? = some (some (([[104, 105], [65, 61, 66]] : List CStr)[i]))) :=
  ⟨by decide, c3_marshal_roundtrip [[104, 105], [65, 61, 66]] (by decide)⟩

/-- Whatever the oracle outcomes, the child's trace starts with the JNI
working-directory string fetch followed by the `chdir` call. -/
lemma childRun_trace_shape (w : ChildWorld) (cmd envv : List CStr) :
    ∃ rest, (childRun w cmd envv).trace = .jniGetString :: .chdirCall :: rest := by
  rcases hc : w.chdirOk with _ | _
  · exact ⟨[Op.logError, Op.exitCall], by simp [childRun, hc]⟩
  · rcases he : marshalVec w.envVecAlloc w.envDup envv with ⟨envp⟩ | _
    · rcases ha : marshalVec w.argVecAlloc w.argDup cmd with ⟨argv⟩ | _
      · rcases hx : w.execOk with _ | _
        · exact ⟨.jniRelease :: (marshalOps w.envVecAlloc envv ++
            (marshalOps w.argVecAlloc cmd ++ [.execvpeCall, .logError, .exitCall])),
            by simp [childRun, hc, he, ha, hx]⟩
        · exact ⟨.jniRelease :: (marshalOps w.envVecAlloc envv ++
            (marshalOps w.argVecAlloc cmd ++ [.execvpeCall])),
            by simp [childRun, hc, he, ha, hx]⟩
      · exact ⟨.jniRelease :: (marshalOps w.envVecAlloc envv ++ marshalOps w.argVecAlloc cmd),
          by simp [childRun, hc, he, ha]⟩
    · exact ⟨.jniRelease :: marshalOps w.envVecAlloc envv, by simp [childRun, hc, he]⟩

/-- On every run whose `chdir` succeeded, the child called `malloc`. -/
lemma childRun_malloc_mem (w : ChildWorld) (cmd envv : List CStr) (hc : w.chdirOk = true) :
    Op.mallocCall ∈ (childRun w cmd envv).trace := by
  rcases he : marshalVec w.envVecAlloc w.envDup envv with ⟨envp⟩ | _
  · rcases ha : marshalVec w.argVecAlloc w.argDup cmd with ⟨argv⟩ | _
    · rcases hx : w.execOk with _ | _ <;> simp [childRun, hc, he, ha, hx, marshalOps]
    · simp [childRun, hc, he, ha, marshalOps]
  · simp [childRun, hc, he, marshalOps]

/-- C4: in the child branch, a failed working-directory change terminates
the child with exit status 1 having performed only the string fetch, the
`chdir`, the log call and the `exit` — no `malloc`, no `strdup`, no
`execvpe`; a failed `execvpe` (allocations succeeding) also terminates the
child with exit status 1; and when the exec succeeds nothing runs after
it: the trace ends at the `execvpe` call. -/
theorem c4_child_error_paths (w : ChildWorld) (cmd envv : List CStr) :
    (w.chdirOk = false →
      childRun w cmd envv =
        ⟨[.jniGetString, .chdirCall, .logError, .exitCall], .exited 1⟩) ∧
    (w.chdirOk = true → w.envVecAlloc = true → w.argVecAlloc = true → w.execOk = false →
      (childRun w cmd envv).outcome = .exited 1 ∧
      (childRun w cmd envv).trace.getLast? = some .exitCall) ∧
    (∀ argv envp, (childRun w cmd envv).outcome = .execed argv envp →
      (childRun w cmd envv).trace.getLast? = some .execvpeCall) := by
  refine ⟨?_, ?_, ?_⟩
  · intro h
    simp [childRun, h]
  · intro h1 h2 h3 h4
    constructor
    · simp [childRun, h1, h2, h3, h4, marshalVec]
    · have ht : (childRun w cmd envv).trace =
          (Op.jniGetString :: Op.chdirCall :: Op.jniRelease ::
            (marshalOps true envv ++ (marshalOps true cmd ++ [Op.execvpeCall, Op.logError]))) ++
            [Op.exitCall] := by
        simp [childRun, h1, h2, h3, h4, marshalVec]
      rw [ht]
      exact List.getLast?_concat _
  · intro argv envp h
    rcases hc : w.chdirOk with _ | _
    · simp [childRun, hc] at h
    · rcases he : marshalVec w.envVecAlloc w.envDup envv with ⟨envp2⟩ | _
      · rcases ha : marshalVec w.argVecAlloc w.argDup cmd with ⟨argv2⟩ | _
        · rcases hx : w.execOk with _ | _
          · simp [childRun, hc, he, ha, hx] at h
          · have ht : (childRun w cmd envv).trace =
                (Op.jniGetString :: Op.chdirCall :: Op.jniRelease ::
                  (marshalOps w.envVecAlloc envv ++ marshalOps w.argVecAlloc cmd)) ++
                  [Op.execvpeCall] := by
              simp [childRun, hc, he, ha, hx]
            rw [ht]
            exact List.getLast?_concat _
        · simp [childRun, hc, he, ha] at h
      · simp [childRun, hc, he] at h

/-- Witness for C4: the chdir-failure path, the exec-failure path, and the
successful-exec path evaluated on the concrete command ["ls"] with
environment ["A=B"]. -/
theorem c4_child_error_paths_witness :
    (childRun ⟨false, true, fun _ => true, true, fun _ => true, true⟩ [[108, 115]]
        [[65, 61, 66]] =
      ⟨[.jniGetString, .chdirCall, .logError, .exitCall], .exited 1⟩) ∧
    ((childRun ⟨true, true, fun _ => true, true, fun _ => true, false⟩ [[108, 115]]
        [[65, 61, 66]]).outcome = .exited 1 ∧
     (childRun ⟨true, true, fun _ => true, true, fun _ => true, false⟩ [[108, 115]]
        [[65, 61, 66]]).trace.getLast? = some .exitCall) ∧
    (childRun ⟨true, true, fun _ => true, true, fun _ => true, true⟩ [[108, 115]]
        [[65, 61, 66]]).trace.getLast? = some .execvpeCall :=
  ⟨(c4_child_error_paths ⟨false, true, fun _ => true, true, fun _ => true, true⟩
      [[108, 115]] [[65, 61, 66]]).1 rfl,
   (c4_child_error_paths ⟨true, true, fun _ => true, true, fun _ => true, false⟩
      [[108, 115]] [[65, 61, 66]]).2.1 rfl rfl rfl rfl,
   (c4_child_error_paths ⟨true, true, fun _ => true, true, fun _ => true, true⟩
      [[108, 115]] [[65, 61, 66]]).2.2 [some [108, 115], none] [some [65, 61, 66], none]
      (by decide)⟩

/-- C9 fails as stated: on a successful-chdir run with one argument string
and empty environment, the child's trace up to the exec contains `malloc`
and `strdup` calls (and JNI entry points), none of which are on the POSIX
async-signal-safe list, so it is false that every operation between fork
and exec is async-signal-safe. -/
theorem c9_counterexample :
    ¬ (∀ op ∈ (childRun ⟨true, true, fun _ => true, true, fun _ => true, true⟩
          [[108, 115]] []).trace.dropLast, asyncSignalSafe op = true) := by
  decide

/-- C9 amended: the child branch always performs non-async-signal-safe
operations between fork and exec — the JNI working-directory string fetch
on every path, and on every successful-chdir path also `malloc` (and the
other JNI array/string calls); of the operations it performs only the
`chdir` call is on the POSIX async-signal-safe list. -/
theorem c9_amended_child_not_async_signal_safe (w : ChildWorld) (cmd envv : List CStr) :
    (.jniGetString ∈ (childRun w cmd envv).trace ∧
      asyncSignalSafe .jniGetString = false) ∧
    (w.chdirOk = true →
      .mallocCall ∈ (childRun w cmd envv).trace ∧
      asyncSignalSafe .mallocCall = false) ∧
    (∀ op : Op, asyncSignalSafe op = true → op = .chdirCall) := by
  refine ⟨⟨?_, rfl⟩, ?_, ?_⟩
  · obtain ⟨rest, hr⟩ := childRun_trace_shape w cmd envv
    rw [hr]
    simp
  · intro hc
    exact ⟨childRun_malloc_mem w cmd envv hc, rfl⟩
  · intro op h
    cases op <;> simp_all [asyncSignalSafe]

/-- Witness for C9 amended on a successful-chdir world. -/
theorem c9_amended_witness :
    ((.jniGetString ∈ (childRun ⟨true, true, fun _ => true, true, fun _ => true, true⟩
        [[108, 115]] []).trace ∧ asyncSignalSafe .jniGetString = false) ∧
     (.mallocCall ∈ (childRun ⟨true, true, fun _ => true, true, fun _ => true, true⟩
        [[108, 115]] []).trace ∧ asyncSignalSafe .mallocCall = false) ∧
     (∀ op : Op, asyncSignalSafe op = true → op = .chdirCall)) :=
  have h := c9_amended_child_not_async_signal_safe
    ⟨true, true, fun _ => true, true, fun _ => true, true⟩ [[108, 115]] []
  ⟨h.1, h.2.1 rfl, h.2.2⟩

/-- C5: when the combined forkpty primitive fails, `createSubprocess`
returns NULL synchronously, no child process exists and no descriptor is
retained (the forkpty contract closes any partially opened pair inside the
primitive; the caller-visible state holds no open master descriptor). -/
theorem c5_forkpty_failure_clean (w : SpawnWorld) (h : w.forkRes = .failure) :
    createSubprocess w = ⟨.nullReturn, false, false⟩ := by
  simp [createSubprocess, h]

/-- Witness for C5 at the failing-forkpty world. -/
theorem c5_forkpty_failure_clean_witness :
    ((⟨.failure, true⟩ : SpawnWorld).forkRes = .failure) ∧
    createSubprocess ⟨.failure, true⟩ = ⟨.nullReturn, false, false⟩ :=
  ⟨rfl, c5_forkpty_failure_clean ⟨.failure, true⟩ rfl⟩

/-- C1 fails as stated: with forkpty succeeding (pid 5, master fd 3) and
the result-array allocation failing, `createSubprocess` neither returns a
handle nor is in the no-process-created failure state — it returns NULL
while a child process exists and the master descriptor is open, a third
outcome the claim rules out. -/
theorem c1_counterexample :
    ¬ ((∃ pid fd, (createSubprocess ⟨.success 5 3, false⟩).ret = .handle pid fd ∧
          0 < pid ∧ 0 ≤ fd) ∨
       ((createSubprocess ⟨.success 5 3, false⟩).ret = .nullReturn ∧
        (createSubprocess ⟨.success 5 3, false⟩).childCreated = false ∧
        (createSubprocess ⟨.success 5 3, false⟩).masterFdOpen = false)) := by
  have hval : createSubprocess ⟨.success 5 3, false⟩ = ⟨.nullReturn, true, true⟩ := rfl
  intro h
  rcases h with ⟨pid, fd, hret, _, _⟩ | ⟨_, hchild, _⟩
  · rw [hval] at hret
    exact SpawnReturn.noConfusion hret
  · rw [hval] at hchild
    exact Bool.noConfusion hchild

/-- C1 amended: under the forkpty contract (a successful fork hands the
parent a positive pid and a non-negative master fd), `createSubprocess`
has exactly three outcomes: a handle carrying that pid and fd with the
child created and the master fd open; NULL after a forkpty failure with no
process and no descriptor; or NULL after a result-array allocation failure
with the live child and the open master descriptor remaining — so a NULL
return alone does not imply that no process was created. -/
theorem c1_amended_spawn_outcomes (w : SpawnWorld)
    (hfork : ∀ pid fd, w.forkRes = .success pid fd → 0 < pid ∧ 0 ≤ fd) :
    (∃ pid fd, (createSubprocess w).ret = .handle pid fd ∧ 0 < pid ∧ 0 ≤ fd ∧
      (createSubprocess w).childCreated = true ∧
      (createSubprocess w).masterFdOpen = true) ∨
    (w.forkRes = .failure ∧ createSubprocess w = ⟨.nullReturn, false, false⟩) ∨
    (w.resultAllocOk = false ∧ (createSubprocess w).ret = .nullReturn ∧
      (createSubprocess w).childCreated = true ∧
      (createSubprocess w).masterFdOpen = true) := by
  rcases hf : w.forkRes with _ | ⟨pid, fd⟩
  · exact Or.inr (Or.inl ⟨rfl, by simp [createSubprocess, hf]⟩)
  · rcases ha : w.resultAllocOk with _ | _
    · refine Or.inr (Or.inr ⟨rfl, ?_, ?_, ?_⟩) <;> simp [createSubprocess, hf, ha]
    · obtain ⟨h1, h2⟩ := hfork pid fd hf
      exact Or.inl ⟨pid, fd, by simp [createSubprocess, hf, ha], h1, h2,
        by simp [createSubprocess, hf, ha], by simp [createSubprocess, hf, ha]⟩

/-- Witness for C1 amended at a successful fork with pid 5, fd 3. -/
theorem c1_amended_spawn_outcomes_witness :
    (∀ pid fd, (⟨.success 5 3, true⟩ : SpawnWorld).forkRes = .success pid fd →
      0 < pid ∧ 0 ≤ fd) ∧
    ((∃ pid fd, (createSubprocess ⟨.success 5 3, true⟩).ret = .handle pid fd ∧
        0 < pid ∧ 0 ≤ fd ∧
        (createSubprocess ⟨.success 5 3, true⟩).childCreated = true ∧
        (createSubprocess ⟨.success 5 3, true⟩).masterFdOpen = true) ∨
     ((⟨.success 5 3, true⟩ : SpawnWorld).forkRes = .failure ∧
       createSubprocess ⟨.success 5 3, true⟩ = ⟨.nullReturn, false, false⟩) ∨
     ((⟨.success 5 3, true⟩ : SpawnWorld).resultAllocOk = false ∧
       (createSubprocess ⟨.success 5 3, true⟩).ret = .nullReturn ∧
       (createSubprocess ⟨.success 5 3, true⟩).childCreated = true ∧
       (createSubprocess ⟨.success 5 3, true⟩).masterFdOpen = true)) :=
  have hc : ∀ pid fd, (⟨.success 5 3, true⟩ : SpawnWorld).forkRes = .success pid fd →
      0 < pid ∧ 0 ≤ fd := by
    intro pid fd h
    cases h
    exact ⟨by decide, by decide⟩
  ⟨hc, c1_amended_spawn_outcomes ⟨.success 5 3, true⟩ hc⟩

/-- C10: if the two-element result-array allocation fails after a
successful fork, `createSubprocess` returns NULL — the same value as a
spawn failure — while the child process exists and the master descriptor
remains open; hence a NULL return does not imply that no process was
created (contrast with the forkpty-failure state, whose `childCreated` is
false). -/
theorem c10_null_with_live_child (pid fd : Int) :
    createSubprocess ⟨.success pid fd, false⟩ = ⟨.nullReturn, true, true⟩ ∧
    createSubprocess ⟨.failure, true⟩ = ⟨.nullReturn, false, false⟩ :=
  ⟨rfl, rfl⟩

end Pty
